import Mathlib

/-!
Verification development for the misskey-ai bot's event reconnection and
deduplication core (`src/bot.py`, `src/streaming.py`, `src/polling.py`,
`src/persistence.py`, `src/utils.py`).

The embedding translates the Python code into executable Lean functions.
Conventions used throughout:

* A Python value obtained with `dict.get(key)` is modelled as `Option String`
  (or a structured `Option`): `none` stands for an absent key *or* a JSON
  `null` value — both give Python `None` through `.get`.
* Python truthiness of such a value (`if x:`) is modelled by `truthy`:
  `none` and `some ""` are falsy.
* A Python dict-valued field (`fromUser`, `user`, `note`) is modelled as an
  `Option` of a small structure; `none` stands for the key being absent or
  holding an empty (falsy) dict.
* `async`/`await` sequencing is modelled by plain sequential state passing;
  a database write that raises is modelled by the affected operation
  returning `none` (the exception propagates, the state is unchanged in the
  parts the operation would have modified).
* The LRU caches (`cachetools.LRUCache`) are modelled as id lists without a
  capacity bound, and eviction is modelled as a separate nondeterministic
  trace action, which over-approximates the code's deterministic
  capacity-based eviction.
-/

namespace MisskeyAI

/-- Python truthiness of a string-or-None value: `None` and `""` are falsy. -/
def truthy : Option String → Bool
  | none => false
  | some s => !(s = "")

/-- Python `a or b` on string-or-None values: the first operand if truthy,
otherwise the second. -/
def pyOr (a b : Option String) : Option String := if truthy a then a else b

/-- The user object shapes consulted by `utils.extract_user_id` /
`extract_username` (`fromUser`, `user`). `none` fields model absent keys. -/
structure UserInfo where
  id : Option String
  username : Option String
deriving DecidableEq

/-- Outcome of reading and parsing an event's `createdAt` timestamp:
the key is absent, the value fails to parse, or it parses to a time
(modelled as an integer instant). -/
inductive TsField
  | absent
  | malformed
  | parsed (t : Int)
deriving DecidableEq

/-- The nested `note` object consulted by `MisskeyBot._parse_mention_data`.
`replyText` models `note["reply"].get("text")`; `none` stands for the
`reply` key being absent, falsy, or lacking a truthy text. -/
structure NoteInfo where
  id : Option String
  text : Option String
  userId : Option String
  user : Option UserInfo
  replyText : Option String
deriving DecidableEq

/-- An inbound event/message dict, with exactly the keys the dedup core
reads (`id`, `type`, `fromUserId`, `toUserId`, `text`, `content`, `body`,
`userId`, `fromUser`, `user`, `note`, `createdAt`). -/
structure MsgData where
  id : Option String
  type : Option String
  fromUserId : Option String
  toUserId : Option String
  text : Option String
  content : Option String
  body : Option String
  userId : Option String
  fromUser : Option UserInfo
  user : Option UserInfo
  note : Option NoteInfo
  createdAt : TsField
deriving DecidableEq

/-- A message dict with every key absent (building block for test inputs). -/
def emptyMsg : MsgData :=
  { id := none, type := none, fromUserId := none, toUserId := none,
    text := none, content := none, body := none, userId := none,
    fromUser := none, user := none, note := none, createdAt := .absent }

/-- `utils.extract_user_id`: `fromUser`-or-`user` dict lookup for `id`,
falling back to `userId or fromUserId`. -/
def extract_user_id (message : MsgData) : Option String :=
  match message.fromUser with
  | some u => u.id
  | none =>
    match message.user with
    | some u => u.id
    | none => pyOr message.userId message.fromUserId

/-- `utils.extract_username`: `fromUser`-or-`user` dict lookup for
`username`, defaulting to `"unknown"`. -/
def extract_username (message : MsgData) : String :=
  match message.fromUser with
  | some u => u.username.getD "unknown"
  | none =>
    match message.user with
    | some u => u.username.getD "unknown"
    | none => "unknown"

/-! ### PersistenceManager (src/persistence.py)

The two processed-item tables.  Each table row carries the UNIQUE key
(`note_id` / `message_id`), `user_id`, and the extra column
(`username` / `chat_type`).  `INSERT OR IGNORE` plus the UNIQUE constraint
is modelled by `insert_or_ignore`. -/

structure LedgerRow where
  key : String
  user_id : Option String
  extra : Option String
deriving DecidableEq

/-- `SELECT 1 FROM t WHERE key = ? LIMIT 1` existence check. -/
def ledger_contains (rows : List LedgerRow) (k : String) : Bool :=
  rows.any (fun r => r.key == k)

/-- `INSERT OR IGNORE INTO t (key, user_id, extra) VALUES (?, ?, ?)`:
a row whose key is already present is ignored, otherwise appended. -/
def insert_or_ignore (rows : List LedgerRow) (k : String) (u e : Option String) :
    List LedgerRow :=
  if ledger_contains rows k then rows else rows ++ [⟨k, u, e⟩]

/-- Number of rows of the table holding the given key. -/
def rowCount (rows : List LedgerRow) (k : String) : Nat :=
  (rows.filter (fun r => r.key == k)).length

/-- The SQLite database: `processed_mentions` and `processed_messages`. -/
structure Db where
  processed_mentions : List LedgerRow
  processed_messages : List LedgerRow
deriving DecidableEq

/-- `PersistenceManager.mark_mention_processed`. -/
def mark_mention_processed (db : Db) (note_id : String)
    (user_id username : Option String) : Db :=
  { db with processed_mentions :=
      insert_or_ignore db.processed_mentions note_id user_id username }

/-- `PersistenceManager.is_mention_processed`. -/
def is_mention_processed (db : Db) (note_id : String) : Bool :=
  ledger_contains db.processed_mentions note_id

/-- `PersistenceManager.mark_message_processed`. -/
def mark_message_processed (db : Db) (message_id : String)
    (user_id chat_type : Option String) : Db :=
  { db with processed_messages :=
      insert_or_ignore db.processed_messages message_id user_id chat_type }

/-- `PersistenceManager.is_message_processed`. -/
def is_message_processed (db : Db) (message_id : String) : Bool :=
  ledger_contains db.processed_messages message_id

/-! ### MisskeyBot dedup state (src/bot.py) -/

/-- The two processed-item categories of `MisskeyBot._mark_processed`. -/
inductive ItemType
  | mention
  | message
deriving DecidableEq

/-- The configuration and identity facts the dedup core reads:
`bot.response.mention_enabled`, `bot.response.chat_enabled`,
`self.bot_user_id` (possibly `None` when `get_current_user` failed) and
`self.startup_time`. -/
structure BotCfg where
  mention_enabled : Bool
  chat_enabled : Bool
  bot_user_id : Option String
  startup_time : Int
deriving DecidableEq

/-- The mutable dedup state of a `MisskeyBot` with its `StreamingClient`:
the database, the bot's two LRU id caches, the streaming client's
transport-local `processed_events` window, plus — as observables — the logs
of mention/message handler response phases that have been entered
(each entry records the event id whose plugin/LLM reply step ran). -/
structure BotState where
  db : Db
  processed_mentions : List String
  processed_messages : List String
  processed_events : List String
  mention_calls : List String
  message_calls : List String
deriving DecidableEq

/-- The all-empty starting state (fresh database, empty caches). -/
def initState : BotState :=
  { db := ⟨[], []⟩, processed_mentions := [], processed_messages := [],
    processed_events := [], mention_calls := [], message_calls := [] }

/-- Insertion into an id cache (`cache[item_id] = True`). -/
def cacheInsert (i : String) (c : List String) : List String :=
  if c.contains i then c else i :: c

/-- `MisskeyBot._mark_processed`: the awaited persistence write followed by
the cache insertion.  `db_ok` says whether the database insert succeeds;
on failure the write raises before the cache line runs, so the result is
`none` (exception, no state change). -/
def mark_processed (db_ok : Bool) (s : BotState) (item_id : String)
    (user_id username : Option String) (item_type : ItemType) :
    Option BotState :=
  if db_ok then
    match item_type with
    | .mention => some { s with
        db := mark_mention_processed s.db item_id user_id username,
        processed_mentions := cacheInsert item_id s.processed_mentions }
    | .message => some { s with
        db := mark_message_processed s.db item_id user_id (some "private"),
        processed_messages := cacheInsert item_id s.processed_messages }
  else none

/-- The fields `MisskeyBot._parse_mention_data` returns. -/
structure MentionData where
  mention_id : Option String
  reply_target_id : Option String
  mtext : String
  user_id : Option String
  username : Option String
deriving DecidableEq

/-- `MisskeyBot._parse_mention_data`. -/
def parse_mention_data (note : MsgData) : MentionData :=
  let is_reply_event := note.type == some "reply" && note.note.isSome
  let mention_id := note.id
  let reply_target_id := note.note.bind NoteInfo.id
  if is_reply_event then
    let nd := (note.note).getD ⟨none, none, none, none, none⟩
    let text0 := nd.text.getD ""
    let text :=
      if truthy nd.replyText then (nd.replyText.getD "") ++ "\n\n" ++ text0
      else text0
    { mention_id := mention_id, reply_target_id := reply_target_id,
      mtext := text, user_id := nd.userId,
      username := nd.user.bind UserInfo.username }
  else
    { mention_id := mention_id, reply_target_id := reply_target_id,
      mtext := (note.note.bind NoteInfo.text).getD "",
      user_id := extract_user_id note,
      username := some (extract_username note) }

/-- `MisskeyBot._handle_mention` together with `_process_mention`:
feature-flag gate, falsy-id gate, then mark-processed followed by the
reply phase.  A database error inside `_mark_processed` is caught by
`_handle_mention`'s `except` clause (an apology reply is attempted but the
dedup state is left unchanged and the normal reply phase never runs).
Note the absence of any cache or ledger lookup before processing. -/
def handle_mention (cfg : BotCfg) (db_ok : Bool) (s : BotState)
    (note : MsgData) : BotState :=
  if cfg.mention_enabled = false then s
  else
    let md := parse_mention_data note
    match md.mention_id with
    | none => s
    | some i =>
      if i = "" then s
      else
        match mark_processed db_ok s i md.user_id md.username .mention with
        | none => s
        | some s1 => { s1 with mention_calls := i :: s1.mention_calls }

/-- `MisskeyBot._process_chat_message`: text/user extraction, the
own-message skip, mark-processed, then (id and text permitting) the
plugin/LLM response phase. -/
def process_chat_message (cfg : BotCfg) (db_ok : Bool) (s : BotState)
    (message : MsgData) (message_id : String) : BotState :=
  let text := pyOr (pyOr message.text message.content)
      (some (message.body.getD ""))
  let user_id := extract_user_id message
  let username := extract_username message
  if truthy cfg.bot_user_id && user_id == cfg.bot_user_id then
    (mark_processed db_ok s message_id user_id (some username) .message).getD s
  else
    match mark_processed db_ok s message_id user_id (some username) .message with
    | none => s
    | some s1 =>
      if truthy user_id && truthy text then
        { s1 with message_calls := message_id :: s1.message_calls }
      else s1

/-- `MisskeyBot._handle_message`: feature-flag gate, falsy-id gate, the
cache-then-ledger duplicate check, then `_process_chat_message` (whose
exceptions are caught, leaving whatever state the partial run produced). -/
def handle_message (cfg : BotCfg) (db_ok : Bool) (s : BotState)
    (message : MsgData) : BotState :=
  if cfg.chat_enabled = false then s
  else
    match message.id with
    | none => s
    | some i =>
      if i = "" then s
      else if s.processed_messages.contains i || is_message_processed s.db i then s
      else process_chat_message cfg db_ok s message i

/-- `MisskeyBot._is_message_after_startup` (and its `PollingManager`
counterpart): absent or unparseable timestamps count as not-after-startup;
otherwise strict comparison with the startup instant. -/
def is_message_after_startup (cfg : BotCfg) (message : MsgData) : Bool :=
  match message.createdAt with
  | .parsed t => cfg.startup_time < t
  | _ => false

/-- One item of `MisskeyBot._process_polled_items`: the cache check, the
ledger check, the startup-time gate, and either the handler call or the
silent mark-processed.  A raising `_mark_processed` aborts the poll cycle
with the state unchanged. -/
def process_polled_item (cfg : BotCfg) (db_ok : Bool) (s : BotState)
    (item : MsgData) (item_type : ItemType) : BotState :=
  let cache := match item_type with
    | .mention => s.processed_mentions
    | .message => s.processed_messages
  let persisted := match item_type with
    | .mention => is_mention_processed s.db
    | .message => is_message_processed s.db
  match item.id with
  | none => s
  | some i =>
    if i = "" then s
    else if cache.contains i then s
    else if persisted i then s
    else if is_message_after_startup cfg item then
      match item_type with
      | .mention => handle_mention cfg db_ok s item
      | .message => handle_message cfg db_ok s item
    else
      (mark_processed db_ok s i (extract_user_id item)
          (some (extract_username item)) item_type).getD s

/-! ### StreamingClient event classification (src/streaming.py) -/

/-- The type-inference step of `StreamingClient._handle_channel_message`:
keep a truthy explicit `type`; otherwise infer `"chat"` when `fromUserId`
and `toUserId` are truthy and `text` is not `None`. -/
def infer_event_type (e : MsgData) : Option String :=
  if truthy e.type then e.type
  else if truthy e.fromUserId && truthy e.toUserId && e.text.isSome then
    some "chat"
  else e.type

/-- Where a main-channel event is routed. -/
inductive Route
  | mention
  | message
  | dropped
deriving DecidableEq

/-- `StreamingClient._dispatch_event` plus `_handle_main_channel_event`:
`mention` and `reply` reach the mention handlers, `chat` the message
handlers; everything else (including a missing type) is only logged. -/
def route_main_event (e : MsgData) : Route :=
  match infer_event_type e with
  | some "mention" => .mention
  | some "reply" => .mention
  | some "chat" => .message
  | _ => .dropped

/-- `StreamingClient._is_duplicate_event` over the transport-local
`processed_events` window. -/
def is_duplicate_event (s : BotState) (event_id : Option String) : Bool :=
  truthy event_id && s.processed_events.contains (event_id.getD "")

/-- `StreamingClient._track_event`. -/
def track_event (s : BotState) (event_id : Option String) : BotState :=
  match event_id with
  | some i =>
      if i = "" then s
      else { s with processed_events := cacheInsert i s.processed_events }
  | none => s

/-- `StreamingClient._handle_channel_message` for a frame arriving on the
registered MAIN channel: short-term duplicate check, tracking, then
classification and dispatch to the bot's handlers. -/
def handle_main_frame (cfg : BotCfg) (db_ok : Bool) (s : BotState)
    (e : MsgData) : BotState :=
  if is_duplicate_event s e.id then s
  else
    let s1 := track_event s e.id
    match route_main_event e with
    | .mention => handle_mention cfg db_ok s1 e
    | .message => handle_message cfg db_ok s1 e
    | .dropped => s1

/-! ### Delivery traces -/

/-- One observable input to the dedup core: a streaming frame on the MAIN
channel, a polled mention or chat page item, the window clearing performed
by `_cleanup_websocket_resources` on reconnect (which runs
`streaming.disconnect()` and `processed_events.clear()`), or a capacity
eviction of one entry from one of the three LRU structures
(an over-approximation of `cachetools.LRUCache`'s eviction). -/
inductive Delivery
  | push (e : MsgData) (db_ok : Bool)
  | pullMention (e : MsgData) (db_ok : Bool)
  | pullChat (e : MsgData) (db_ok : Bool)
  | wsReconnect
  | evictMentionCache (i : String)
  | evictMessageCache (i : String)
  | evictWindow (i : String)
deriving DecidableEq

/-- Effect of one delivery on the dedup state. -/
def step (cfg : BotCfg) (s : BotState) : Delivery → BotState
  | .push e db_ok => handle_main_frame cfg db_ok s e
  | .pullMention e db_ok => process_polled_item cfg db_ok s e .mention
  | .pullChat e db_ok => process_polled_item cfg db_ok s e .message
  | .wsReconnect => { s with processed_events := [] }
  | .evictMentionCache i =>
      { s with processed_mentions := s.processed_mentions.erase i }
  | .evictMessageCache i =>
      { s with processed_messages := s.processed_messages.erase i }
  | .evictWindow i =>
      { s with processed_events := s.processed_events.erase i }

/-- Run a whole delivery trace from a state. -/
def run (cfg : BotCfg) (s : BotState) (trace : List Delivery) : BotState :=
  trace.foldl (step cfg) s

/-- Deliveries that do not use the push transport. -/
def no_push : Delivery → Bool
  | .push _ _ => false
  | _ => true

/-- The at-most-once invariant on the chat-message side: every id has
entered the response phase at most once, and every id that has entered it
is recorded in the persistent `processed_messages` table. -/
def InvMsg (s : BotState) : Prop :=
  ∀ id, s.message_calls.count id ≤ 1 ∧
    (id ∈ s.message_calls → ledger_contains s.db.processed_messages id = true)

/-- The at-most-once invariant on the mention side (only maintained by the
pull path, which checks cache and ledger before handling). -/
def InvMention (s : BotState) : Prop :=
  ∀ id, s.mention_calls.count id ≤ 1 ∧
    (id ∈ s.mention_calls → ledger_contains s.db.processed_mentions id = true)

/-! ### Connection supervision (src/bot.py: `_start_websocket`,
`_maintain_websocket`, `_setup_streaming`) and `utils.retry_async` -/

/-- `utils.retry_async`'s loop, counting calls of the wrapped function:
`retry_loop n i succeeds` runs up to `n` more attempts starting at attempt
index `i`; it returns the total attempt count so far and whether some
attempt succeeded (exhaustion re-raises the last error). -/
def retry_loop (attempts_left : Nat) (i : Nat) (succeeds : Nat → Bool) :
    Nat × Bool :=
  match attempts_left with
  | 0 => (i, false)
  | n + 1 => if succeeds i then (i + 1, true) else retry_loop n (i + 1) succeeds

/-- `retry_async(max_retries=n)` applied to a connect attempt: the number of
attempts made and the overall outcome.  (With `n = 0` the Python wrapper
raises `last_error = None` as a `TypeError`; the count-and-outcome view is
the same.) -/
def retry_async (max_retries : Nat) (succeeds : Nat → Bool) : Nat × Bool :=
  retry_loop max_retries 0 succeeds

/-- Which long-lived listening task `_setup_streaming` leaves behind. -/
inductive BotMode
  | websocket
  | polling
deriving DecidableEq

/-- `MisskeyBot._setup_streaming` with `_start_websocket`
(= `retry_async(max_retries=WS_MAX_RETRIES)` around `streaming.connect()`):
returns the number of connect attempts made and the selected mode.
`connected_after` models the `self.streaming.is_connected` check after a
successful `connect()` call. -/
def setup_streaming (ws_max_retries : Nat) (connect_succeeds : Nat → Bool)
    (connected_after : Bool) : Nat × BotMode :=
  let r := retry_async ws_max_retries connect_succeeds
  if r.2 then (r.1, if connected_after then .websocket else .polling)
  else (r.1, .polling)

/-- What the monitor loop of `_maintain_websocket` observes at one
iteration: the `self.running` flag, the `self.streaming.is_connected`
property, and whether the `await asyncio.sleep(1)` in the body is
cancelled. -/
structure MonitorObs where
  running : Bool
  is_connected : Bool
  sleep_cancelled : Bool
deriving DecidableEq

/-- How the `while self.running and self.streaming.is_connected` loop ends.
`wsError` stands for a `WebSocketConnectionError`/`APIConnectionError`/
`OSError` escaping the loop body — the loop body is only
`await asyncio.sleep(1)`, which raises none of these, so this outcome
never occurs (`monitor_loop_no_wsError` below). -/
inductive LoopEnd
  | condFalse
  | cancelled
  | wsError
deriving DecidableEq

/-- The monitor loop over a finite observation horizon; exhausting the
horizon while the condition still holds is reported as `condFalse` as well
(the distinction is irrelevant to the theorems, which locate the exit
inside the horizon). -/
def monitor_loop : List MonitorObs → LoopEnd
  | [] => .condFalse
  | o :: rest =>
    if o.running && o.is_connected then
      if o.sleep_cancelled then .cancelled else monitor_loop rest
    else .condFalse

/-- The possible overall outcomes of the `_maintain_websocket` task. -/
inductive MonitorOutcome
  | noFurtherAction
  | reconnectedResume
  | switchedToPolling
  | cancelled
deriving DecidableEq

/-- `MisskeyBot._maintain_websocket`: the monitor loop in a `try`, a
`CancelledError` handler, and an exception handler holding the
cleanup-reconnect-or-fallback logic (`_cleanup_websocket_resources`,
`_start_websocket`, `_switch_to_polling`), which only runs when the loop
ends in `wsError`.  When the loop condition simply turns false the
function returns and the task finishes with no further action. -/
def maintain_websocket (reconnect_succeeds : Bool)
    (obs : List MonitorObs) : MonitorOutcome :=
  match monitor_loop obs with
  | .condFalse => .noFurtherAction
  | .cancelled => .cancelled
  | .wsError =>
      if reconnect_succeeds then .reconnectedResume else .switchedToPolling

/-- Reconnect attempts the monitor makes over a run: `WS_MAX_RETRIES`
retried attempts in the `wsError` arm, none otherwise. -/
def maintain_connect_attempts (ws_max_retries : Nat)
    (obs : List MonitorObs) : Nat :=
  match monitor_loop obs with
  | .wsError => ws_max_retries
  | _ => 0

/-- WebSocket connect attempts over a whole run: those of
`_setup_streaming` plus — only when the websocket mode was kept — those of
the monitor task.  The polling task (`_poll_mentions`) contains no call to
`_start_websocket`, so polling mode contributes none. -/
def run_connect_attempts (ws_max_retries : Nat) (connect_succeeds : Nat → Bool)
    (connected_after : Bool) (obs : List MonitorObs) : Nat :=
  let r := setup_streaming ws_max_retries connect_succeeds connected_after
  r.1 + (match r.2 with
    | .polling => 0
    | .websocket => maintain_connect_attempts ws_max_retries obs)

/-! ### Polling loop control (src/bot.py `_poll_mentions`,
src/polling.py `PollingManager._poll_mentions`) -/

/-- How one `poll_once` cycle ends: normally, with one of the caught
error kinds (`APIConnectionError`, `APIRateLimitError`, `ValueError`,
`OSError`), or with `asyncio.CancelledError`. -/
inductive CycleOutcome
  | ok
  | err
  | cancelled
deriving DecidableEq

/-- What one iteration of the polling loop observes: `self.running` at the
`while` check, the cycle outcome, and `self.running` again at the
re-check inside the error handler. -/
structure PollObs where
  running_at_top : Bool
  outcome : CycleOutcome
  running_after_err : Bool
deriving DecidableEq

/-- Why the polling loop ended (or that it is still going at the end of the
finite observation horizon). -/
inductive PollExit
  | stopFlag
  | cancelled
  | stillRunning
deriving DecidableEq

/-- The `while self.running` polling loop, returning its exit and the
number of base-delay sleeps performed (`poll_once` ends each normal cycle
with `asyncio.sleep(base_delay)`; the error handler sleeps the same delay
before continuing). -/
def poll_loop : List PollObs → PollExit × Nat
  | [] => (.stillRunning, 0)
  | o :: rest =>
    if o.running_at_top = false then (.stopFlag, 0)
    else
      match o.outcome with
      | .ok => ((poll_loop rest).1, (poll_loop rest).2 + 1)
      | .cancelled => (.cancelled, 0)
      | .err =>
        if o.running_after_err = false then (.stopFlag, 0)
        else ((poll_loop rest).1, (poll_loop rest).2 + 1)

/-! ### StreamingClient channel registry (src/streaming.py) -/

/-- `ChannelType` enum (only `MAIN = "main"`). -/
inductive ChannelType
  | main
deriving DecidableEq

/-- A frame sent over the socket by the channel-management methods. -/
inductive WireFrame
  | connectFrame (channel : ChannelType) (id : Nat)
  | disconnectFrame (id : Nat)
deriving DecidableEq

/-- The channel-relevant part of a `StreamingClient`: the `channels` dict
(in insertion order), whether the socket is open and usable, a freshness
counter modelling `uuid.uuid4()`, and the log of frames sent. -/
structure StreamState where
  channels : List (Nat × ChannelType)
  ws_open : Bool
  next_id : Nat
  sent : List WireFrame
deriving DecidableEq

/-- A `StreamState` with no channels and an open socket. -/
def initStream : StreamState :=
  { channels := [], ws_open := true, next_id := 0, sent := [] }

/-- `StreamingClient.connect_channel`: reuse the first existing channel of
the type (sending nothing); otherwise generate a fresh id and, if the
socket is usable, send the connect frame and register the channel — or
raise `WebSocketConnectionError` (the `.error` case) leaving the registry
unchanged. -/
def connect_channel (s : StreamState) (channel_type : ChannelType) :
    Except Unit (Nat × StreamState) :=
  match (s.channels.filter (fun c => c.2 == channel_type)).map (fun c => c.1) with
  | ch_id :: _ => .ok (ch_id, s)
  | [] =>
    let channel_id := s.next_id
    if s.ws_open then
      .ok (channel_id, { s with
        channels := s.channels ++ [(channel_id, channel_type)],
        sent := s.sent ++ [.connectFrame channel_type channel_id],
        next_id := s.next_id + 1 })
    else .error ()

/-- `StreamingClient.disconnect_channel`: send a disconnect frame for every
channel of the type (when the socket is open) and drop them all. -/
def disconnect_channel (s : StreamState) (channel_type : ChannelType) :
    StreamState :=
  let to_remove := s.channels.filter (fun c => c.2 == channel_type)
  { s with
    channels := s.channels.filter (fun c => !(c.2 == channel_type)),
    sent := s.sent ++
      (if s.ws_open then to_remove.map (fun c => .disconnectFrame c.1) else []) }

/-- `StreamingClient._disconnect_all_channels`. -/
def disconnect_all_channels (s : StreamState) : StreamState :=
  { s with
    channels := [],
    sent := s.sent ++
      (if s.ws_open then s.channels.map (fun c => .disconnectFrame c.1) else []) }

/-- The operations that touch the channel registry over a client's life,
including socket state changes. -/
inductive ChanOp
  | conn (channel_type : ChannelType)
  | disc (channel_type : ChannelType)
  | discAll
  | setWs (open_now : Bool)
deriving DecidableEq

/-- Apply one registry operation (a failing `connect_channel` raises and
leaves the registry unchanged). -/
def apply_chan_op (s : StreamState) : ChanOp → StreamState
  | .conn ct =>
    match connect_channel s ct with
    | .ok r => r.2
    | .error _ => s
  | .disc ct => disconnect_channel s ct
  | .discAll => disconnect_all_channels s
  | .setWs b => { s with ws_open := b }

/-- Number of registered subscriptions of a channel type. -/
def subCount (s : StreamState) (channel_type : ChannelType) : Nat :=
  (s.channels.filter (fun c => c.2 == channel_type)).length

/-! ## Theorems -/

/-! ### Ledger and cache helper lemmas -/

theorem ledger_contains_insert_self (l : List LedgerRow) (k : String)
    (u e : Option String) : ledger_contains (insert_or_ignore l k u e) k = true := by
  unfold insert_or_ignore
  by_cases h : ledger_contains l k
  · simp [h]
  · simp only [h, if_false, Bool.false_eq_true]
    simp [ledger_contains, List.any_append]

theorem ledger_contains_insert_mono (l : List LedgerRow) (k j : String)
    (u e : Option String) (h : ledger_contains l j = true) :
    ledger_contains (insert_or_ignore l k u e) j = true := by
  unfold insert_or_ignore
  by_cases hc : ledger_contains l k
  · simp [hc, h]
  · simp only [hc, if_false, Bool.false_eq_true]
    simp only [ledger_contains, List.any_append] at h ⊢
    simp [h]

theorem cacheInsert_contains_self (i : String) (c : List String) :
    (cacheInsert i c).contains i = true := by
  unfold cacheInsert
  by_cases h : i ∈ c <;> simp [h]

theorem rowCount_eq_zero (l : List LedgerRow) (k : String)
    (h : ledger_contains l k = false) : rowCount l k = 0 := by
  unfold rowCount
  simp only [List.length_eq_zero, List.filter_eq_nil_iff]
  intro r hr
  simp only [ledger_contains, List.any_eq_false] at h
  exact h r hr

theorem rowCount_eq_one (l : List LedgerRow) (k : String)
    (hnd : (l.map LedgerRow.key).Nodup) (hc : ledger_contains l k = true) :
    rowCount l k = 1 := by
  induction l with
  | nil => simp [ledger_contains] at hc
  | cons r t ih =>
    rw [List.map_cons, List.nodup_cons] at hnd
    by_cases hk : r.key = k
    · have ht : ledger_contains t k = false := by
        subst hk
        simp only [ledger_contains, List.any_eq_false]
        intro x hx
        simp only [beq_iff_eq]
        intro hxk
        exact hnd.1 (hxk ▸ List.mem_map_of_mem LedgerRow.key hx)
      have h0 : rowCount t k = 0 := rowCount_eq_zero t k ht
      unfold rowCount at h0 ⊢
      rw [List.filter_cons]
      simp [hk, h0]
    · have hct : ledger_contains t k = true := by
        simp only [ledger_contains, List.any_cons, Bool.or_eq_true,
          beq_iff_eq] at hc
        rcases hc with h | h
        · exact absurd h hk
        · simpa [ledger_contains] using h
      have := ih hnd.2 hct
      unfold rowCount at this ⊢
      rw [List.filter_cons]
      simp [hk, this]

theorem insert_or_ignore_of_contains (l : List LedgerRow) (k : String)
    (u e : Option String) (h : ledger_contains l k = true) :
    insert_or_ignore l k u e = l := by
  unfold insert_or_ignore
  simp [h]

/-! ### Claim C8 — ledger idempotency -/

/-- Claim C8: marking an event id as processed in the persistent ledger is
idempotent.  With the id already recorded (and the table satisfying its
UNIQUE constraint, expressed as key `Nodup`), `mark_mention_processed`
(resp. `mark_message_processed`) leaves the database unchanged — the
insert-or-ignore never raises a constraint error in the model, it is a
total function — exactly one row for that id remains, and the
existence check still answers true. -/
theorem C8_mark_processed_idempotent (db : Db) (note_id message_id : String)
    (u1 n1 u2 c2 : Option String)
    (hnd1 : (db.processed_mentions.map LedgerRow.key).Nodup)
    (hnd2 : (db.processed_messages.map LedgerRow.key).Nodup)
    (h1 : is_mention_processed db note_id = true)
    (h2 : is_message_processed db message_id = true) :
    mark_mention_processed db note_id u1 n1 = db ∧
    rowCount (mark_mention_processed db note_id u1 n1).processed_mentions note_id = 1 ∧
    is_mention_processed (mark_mention_processed db note_id u1 n1) note_id = true ∧
    mark_message_processed db message_id u2 c2 = db ∧
    rowCount (mark_message_processed db message_id u2 c2).processed_messages message_id = 1 ∧
    is_message_processed (mark_message_processed db message_id u2 c2) message_id = true := by
  unfold is_mention_processed at h1
  unfold is_message_processed at h2
  have e1 : mark_mention_processed db note_id u1 n1 = db := by
    unfold mark_mention_processed
    rw [insert_or_ignore_of_contains _ _ _ _ h1]
  have e2 : mark_message_processed db message_id u2 c2 = db := by
    unfold mark_message_processed
    rw [insert_or_ignore_of_contains _ _ _ _ h2]
  refine ⟨e1, ?_, ?_, e2, ?_, ?_⟩
  · rw [e1]; exact rowCount_eq_one _ _ hnd1 h1
  · rw [e1]; exact h1
  · rw [e2]; exact rowCount_eq_one _ _ hnd2 h2
  · rw [e2]; exact h2

/-- Witness for C8 at a concrete one-row-per-table database. -/
theorem C8_mark_processed_idempotent_witness :
    mark_mention_processed ⟨[⟨"n1", none, none⟩], [⟨"m1", some "u", some "private"⟩]⟩
        "n1" (some "u9") (some "alice") =
      ⟨[⟨"n1", none, none⟩], [⟨"m1", some "u", some "private"⟩]⟩ ∧
    rowCount (mark_mention_processed
        ⟨[⟨"n1", none, none⟩], [⟨"m1", some "u", some "private"⟩]⟩
        "n1" (some "u9") (some "alice")).processed_mentions "n1" = 1 ∧
    is_mention_processed (mark_mention_processed
        ⟨[⟨"n1", none, none⟩], [⟨"m1", some "u", some "private"⟩]⟩
        "n1" (some "u9") (some "alice")) "n1" = true ∧
    mark_message_processed ⟨[⟨"n1", none, none⟩], [⟨"m1", some "u", some "private"⟩]⟩
        "m1" (some "u9") (some "private") =
      ⟨[⟨"n1", none, none⟩], [⟨"m1", some "u", some "private"⟩]⟩ ∧
    rowCount (mark_message_processed
        ⟨[⟨"n1", none, none⟩], [⟨"m1", some "u", some "private"⟩]⟩
        "m1" (some "u9") (some "private")).processed_messages "m1" = 1 ∧
    is_message_processed (mark_message_processed
        ⟨[⟨"n1", none, none⟩], [⟨"m1", some "u", some "private"⟩]⟩
        "m1" (some "u9") (some "private")) "m1" = true :=
  C8_mark_processed_idempotent
    ⟨[⟨"n1", none, none⟩], [⟨"m1", some "u", some "private"⟩]⟩
    "n1" "m1" (some "u9") (some "alice") (some "u9") (some "private")
    (by decide) (by decide) (by decide) (by decide)

/-! ### Claim C5 — cache update versus ledger write -/

/-- Claim C5 counterexample: `_mark_processed` performs the awaited ledger
write *first* and only then inserts into the in-memory cache.  When the
ledger write raises, the exception propagates before the cache line runs:
starting from the empty state, marking `"m1"` with a failing write leaves
the caller's state without `"m1"` in the processed-messages cache, and the
operation surfaces the error — contradicting the claim that the cache
contains the id even if the ledger write raises. -/
theorem C5_counterexample :
    ((mark_processed false initState "m1" (some "u1") (some "alice")
        ItemType.message).getD initState).processed_messages.contains "m1" = false ∧
    mark_processed false initState "m1" (some "u1") (some "alice")
        ItemType.message = none := by
  constructor <;> rfl

/-- Claim C5 as amended: the cache insertion is synchronous but happens
right *after* the awaited ledger write returns; whenever the write
succeeds, both the ledger and the cache contain the id, and when the write
raises, the exception propagates with neither structure updated (the
caller's state is unchanged).  Stated for both item categories. -/
theorem C5_cache_after_ledger (s : BotState) (i : String) (u n : Option String) :
    (((mark_processed true s i u n ItemType.message).getD s).processed_messages.contains i
        = true) ∧
    (is_message_processed ((mark_processed true s i u n ItemType.message).getD s).db i
        = true) ∧
    mark_processed false s i u n ItemType.message = none ∧
    (((mark_processed true s i u n ItemType.mention).getD s).processed_mentions.contains i
        = true) ∧
    (is_mention_processed ((mark_processed true s i u n ItemType.mention).getD s).db i
        = true) ∧
    mark_processed false s i u n ItemType.mention = none := by
  refine ⟨?_, ?_, rfl, ?_, ?_, rfl⟩
  · simp only [mark_processed, if_true, Option.getD_some]
    exact cacheInsert_contains_self i s.processed_messages
  · simp only [mark_processed, if_true, Option.getD_some]
    unfold is_message_processed mark_message_processed
    exact ledger_contains_insert_self _ _ _ _
  · simp only [mark_processed, if_true, Option.getD_some]
    exact cacheInsert_contains_self i s.processed_mentions
  · simp only [mark_processed, if_true, Option.getD_some]
    unfold is_mention_processed mark_mention_processed
    exact ledger_contains_insert_self _ _ _ _

/-! ### Claim C2 — reaction to push-connection death -/

theorem monitor_loop_ne_wsError (obs : List MonitorObs) :
    monitor_loop obs ≠ LoopEnd.wsError := by
  induction obs with
  | nil => simp [monitor_loop]
  | cons o rest ih =>
    unfold monitor_loop
    by_cases h : o.running && o.is_connected
    · by_cases hc : o.sleep_cancelled <;> simp [h, hc, ih]
    · simp [h]

/-- Claim C2 (code-bug evidence): the reconnect-or-fallback logic of
`_maintain_websocket` lives in an `except (WebSocketConnectionError,
APIConnectionError, OSError)` handler, but the `try` body is only the
`while self.running and self.streaming.is_connected: await asyncio.sleep(1)`
loop, whose body never raises these — so when the connection dies while
running (second observation: `running = true`, `is_connected = false`) the
loop exits normally and the task ends with no cleanup, no reconnect
attempt and no polling fallback; in general the task can only end with
`noFurtherAction` or `cancelled`, never in the reconnected or
switched-to-polling outcomes the claim requires. -/
theorem C2_connection_death_unhandled :
    maintain_websocket false
        [⟨true, true, false⟩, ⟨true, false, false⟩] = MonitorOutcome.noFurtherAction ∧
    ∀ r obs, maintain_websocket r obs = MonitorOutcome.noFurtherAction ∨
      maintain_websocket r obs = MonitorOutcome.cancelled := by
  refine ⟨rfl, fun r obs => ?_⟩
  unfold maintain_websocket
  rcases h : monitor_loop obs with _ | _ | _
  · exact Or.inl rfl
  · exact Or.inr rfl
  · exact absurd h (monitor_loop_ne_wsError obs)

/-! ### Claim C3 — bounded initial retries, then permanent polling -/

theorem retry_loop_all_fail (n i : Nat) :
    retry_loop n i (fun _ => false) = (i + n, false) := by
  induction n generalizing i with
  | zero => simp [retry_loop]
  | succ m ih =>
    unfold retry_loop
    simp only [if_false, Bool.false_eq_true]
    rw [ih (i + 1)]
    congr 1
    omega

/-- Claim C3: when every initial WebSocket connect attempt fails,
`_start_websocket`'s `retry_async(max_retries=WS_MAX_RETRIES)` makes
exactly the configured number of attempts, `_setup_streaming` then starts
the polling task, and the whole run performs no further push connect
attempts (the polling loop contains no call to `_start_websocket`).  The
bound `1 ≤ N` reflects that the configured retry count is positive. -/
theorem C3_reconnect_bound (N : Nat) (hN : 1 ≤ N) (connected_after : Bool)
    (obs : List MonitorObs) :
    setup_streaming N (fun _ => false) connected_after = (N, BotMode.polling) ∧
    run_connect_attempts N (fun _ => false) connected_after obs = N := by
  have hr : retry_async N (fun _ => false) = (N, false) := by
    unfold retry_async
    rw [retry_loop_all_fail]
    simp
  have hs : setup_streaming N (fun _ => false) connected_after = (N, BotMode.polling) := by
    unfold setup_streaming
    rw [hr]
    simp
  refine ⟨hs, ?_⟩
  unfold run_connect_attempts
  rw [hs]
  simp

/-- Witness for C3 at the spec's example bound of 5 attempts. -/
theorem C3_reconnect_bound_witness :
    1 ≤ 5 ∧
    (setup_streaming 5 (fun _ => false) true = (5, BotMode.polling) ∧
      run_connect_attempts 5 (fun _ => false) true [] = 5) :=
  ⟨by decide, C3_reconnect_bound 5 (by decide) true []⟩

/-! ### Claim C6 — the polling loop is self-healing -/

/-- Claim C6: a caught error (`APIConnectionError`, `APIRateLimitError`,
`ValueError`, `OSError`) during one poll cycle does not terminate the
polling loop — the iteration just adds one base-delay sleep and the loop
continues on the remaining observations; and along any horizon where the
running flag stays true and no cancellation occurs, the loop is still
running at the end, whatever mix of successful and erroring cycles
happened. -/
theorem C6_poll_loop_survives_errors (rest : List PollObs) (obs : List PollObs)
    (h : ∀ o ∈ obs, o.running_at_top = true ∧
      o.outcome ≠ CycleOutcome.cancelled ∧ o.running_after_err = true) :
    poll_loop (⟨true, CycleOutcome.err, true⟩ :: rest) =
      ((poll_loop rest).1, (poll_loop rest).2 + 1) ∧
    (poll_loop obs).1 = PollExit.stillRunning := by
  constructor
  · rfl
  · induction obs with
    | nil => rfl
    | cons o t ih =>
      obtain ⟨htop, hout, haft⟩ := h o (List.mem_cons_self o t)
      have ht : ∀ o ∈ t, o.running_at_top = true ∧
          o.outcome ≠ CycleOutcome.cancelled ∧ o.running_after_err = true :=
        fun x hx => h x (List.mem_cons_of_mem o hx)
      unfold poll_loop
      rcases hoc : o.outcome with _ | _ | _
      · simp [htop, hoc, ih ht]
      · simp [htop, hoc, haft, ih ht]
      · exact absurd hoc hout

/-- Witness for C6: one successful cycle followed by one erroring cycle,
both with the running flag up. -/
theorem C6_poll_loop_survives_errors_witness :
    (∀ o ∈ [(⟨true, CycleOutcome.ok, true⟩ : PollObs),
        ⟨true, CycleOutcome.err, true⟩],
      o.running_at_top = true ∧ o.outcome ≠ CycleOutcome.cancelled ∧
        o.running_after_err = true) ∧
    (poll_loop [(⟨true, CycleOutcome.err, true⟩ : PollObs)] =
        ((poll_loop []).1, (poll_loop []).2 + 1) ∧
      (poll_loop [(⟨true, CycleOutcome.ok, true⟩ : PollObs),
          ⟨true, CycleOutcome.err, true⟩]).1 = PollExit.stillRunning) :=
  ⟨by decide,
    C6_poll_loop_survives_errors []
      [⟨true, CycleOutcome.ok, true⟩, ⟨true, CycleOutcome.err, true⟩]
      (by decide)⟩

/-! ### Claim C7 — channel uniqueness -/

theorem connect_channel_post (s : StreamState) (ct : ChannelType) (c : Nat)
    (s' : StreamState) (h : connect_channel s ct = Except.ok (c, s')) :
    ∃ t, (s'.channels.filter (fun x => x.2 == ct)).map (fun x => x.1) = c :: t := by
  unfold connect_channel at h
  rcases hfm : (s.channels.filter (fun x => x.2 == ct)).map (fun x => x.1)
    with _ | ⟨h0, t⟩
  · rw [hfm] at h
    by_cases hws : s.ws_open
    · simp only [hws, if_true, Except.ok.injEq, Prod.mk.injEq] at h
      obtain ⟨hc, hs⟩ := h
      subst hc
      subst hs
      have hfe : s.channels.filter (fun x => x.2 == ct) = [] :=
        List.map_eq_nil_iff.mp hfm
      refine ⟨[], ?_⟩
      rw [List.filter_append, hfe]
      simp
    · simp [hws] at h
  · rw [hfm] at h
    simp only [Except.ok.injEq, Prod.mk.injEq] at h
    obtain ⟨hc, hs⟩ := h
    subst hc
    subst hs
    exact ⟨t, hfm⟩

theorem channel_pairs_main_filter (l : List (Nat × ChannelType)) :
    l.filter (fun c => !(c.2 == ChannelType.main)) = [] := by
  induction l with
  | nil => rfl
  | cons p t ih =>
    rw [List.filter_cons]
    rcases p with ⟨n, ct⟩
    cases ct
    simp [ih]

theorem subCount_apply_chan_op_le (s : StreamState) (op : ChanOp)
    (ct : ChannelType) (h : subCount s ct ≤ 1) :
    subCount (apply_chan_op s op) ct ≤ 1 := by
  cases ct
  rcases op with ct2 | ct2 | _ | b
  · cases ct2
    rcases hc : connect_channel s ChannelType.main with e | r
    · simpa [apply_chan_op, hc] using h
    · rcases r with ⟨c, s'⟩
      have hgoal : subCount s' ChannelType.main ≤ 1 := by
        unfold connect_channel at hc
        rcases hfm : (s.channels.filter (fun x => x.2 == ChannelType.main)).map
            (fun x => x.1) with _ | ⟨h0, t⟩
        · rw [hfm] at hc
          by_cases hws : s.ws_open
          · simp only [hws, if_true, Except.ok.injEq, Prod.mk.injEq] at hc
            obtain ⟨hcc, hs⟩ := hc
            subst hs
            have hfe : s.channels.filter (fun x => x.2 == ChannelType.main) = [] :=
              List.map_eq_nil_iff.mp hfm
            unfold subCount
            rw [List.filter_append, hfe]
            simp
          · simp [hws] at hc
        · rw [hfm] at hc
          simp only [Except.ok.injEq, Prod.mk.injEq] at hc
          obtain ⟨hcc, hs⟩ := hc
          subst hs
          exact h
      simpa [apply_chan_op, hc] using hgoal
  · cases ct2
    have : subCount (disconnect_channel s ChannelType.main) ChannelType.main ≤ 1 := by
      unfold disconnect_channel subCount
      rw [channel_pairs_main_filter]
      simp
    simpa [apply_chan_op] using this
  · have : subCount (disconnect_all_channels s) ChannelType.main ≤ 1 := by
      unfold disconnect_all_channels subCount
      simp
    simpa [apply_chan_op] using this
  · simpa [apply_chan_op, subCount] using h

theorem subCount_run_ops_le (ops : List ChanOp) (ct : ChannelType) :
    subCount (ops.foldl apply_chan_op initStream) ct ≤ 1 := by
  have hgen : ∀ s, subCount s ct ≤ 1 →
      subCount (ops.foldl apply_chan_op s) ct ≤ 1 := by
    induction ops with
    | nil => exact fun s hs => hs
    | cons op t ih =>
      intro s hs
      exact ih _ (subCount_apply_chan_op_le s op ct hs)
  apply hgen
  cases ct
  decide

/-- Claim C7: a second `connect_channel` for the MAIN type returns the same
channel id with the state — in particular the sent-frame log — unchanged
(so no second connect frame goes over the socket), and under any sequence
of channel operations starting from a fresh client, at most one
subscription per channel type ever exists. -/
theorem C7_channel_uniqueness (s : StreamState) (c1 : Nat) (s1 : StreamState)
    (ops : List ChanOp) (ct : ChannelType)
    (hconn : connect_channel s ChannelType.main = Except.ok (c1, s1)) :
    connect_channel s1 ChannelType.main = Except.ok (c1, s1) ∧
    subCount (ops.foldl apply_chan_op initStream) ct ≤ 1 := by
  constructor
  · obtain ⟨t, hpost⟩ := connect_channel_post s ChannelType.main c1 s1 hconn
    unfold connect_channel
    rw [hpost]
  · exact subCount_run_ops_le ops ct

/-- Witness for C7: connecting MAIN twice on a fresh open client. -/
theorem C7_channel_uniqueness_witness :
    connect_channel initStream ChannelType.main =
      Except.ok (0, ⟨[(0, ChannelType.main)], true, 1,
        [WireFrame.connectFrame ChannelType.main 0]⟩) ∧
    (connect_channel ⟨[(0, ChannelType.main)], true, 1,
        [WireFrame.connectFrame ChannelType.main 0]⟩ ChannelType.main =
      Except.ok (0, ⟨[(0, ChannelType.main)], true, 1,
        [WireFrame.connectFrame ChannelType.main 0]⟩) ∧
     subCount ([ChanOp.conn ChannelType.main,
        ChanOp.conn ChannelType.main].foldl apply_chan_op initStream)
        ChannelType.main ≤ 1) :=
  ⟨rfl, C7_channel_uniqueness initStream 0
    ⟨[(0, ChannelType.main)], true, 1, [WireFrame.connectFrame ChannelType.main 0]⟩
    [ChanOp.conn ChannelType.main, ChanOp.conn ChannelType.main]
    ChannelType.main rfl⟩

/-! ### Claim C9 — main-channel event classification -/

/-- Claim C9 counterexample: an event lacking an explicit type that
*carries* a `fromUserId` field (here with the falsy value `""`), a
`toUserId` field and a non-None `text` field is **not** classified as chat
— `_handle_channel_message` requires the from/to values to be truthy, so
the event falls through to the no-event-type path and reaches no
handler. -/
theorem C9_counterexample :
    ({ emptyMsg with
        fromUserId := some "",
        toUserId := some "u2",
        text := some "hi" } : MsgData).type = none ∧
    ({ emptyMsg with
        fromUserId := some "",
        toUserId := some "u2",
        text := some "hi" } : MsgData).fromUserId.isSome = true ∧
    ({ emptyMsg with
        fromUserId := some "",
        toUserId := some "u2",
        text := some "hi" } : MsgData).toUserId.isSome = true ∧
    ({ emptyMsg with
        fromUserId := some "",
        toUserId := some "u2",
        text := some "hi" } : MsgData).text.isSome = true ∧
    route_main_event { emptyMsg with
        fromUserId := some "",
        toUserId := some "u2",
        text := some "hi" } = Route.dropped := by
  refine ⟨rfl, rfl, rfl, rfl, rfl⟩

/-- Claim C9 as amended: on the MAIN channel, nested events of explicit
type `mention` or `reply` are routed to the mention handler path, and an
event whose explicit type is absent (or empty) but which carries a
*non-empty* `fromUserId`, a *non-empty* `toUserId` and a non-None `text`
is classified as `chat` and routed to the message handler path. -/
theorem C9_routing (e : MsgData) :
    (e.type = some "mention" → route_main_event e = Route.mention) ∧
    (e.type = some "reply" → route_main_event e = Route.mention) ∧
    (truthy e.type = false → truthy e.fromUserId = true →
      truthy e.toUserId = true → e.text.isSome = true →
      route_main_event e = Route.message) := by
  refine ⟨?_, ?_, ?_⟩
  · intro h
    unfold route_main_event infer_event_type
    rw [h]
    rfl
  · intro h
    unfold route_main_event infer_event_type
    rw [h]
    rfl
  · intro ht hf hto htext
    unfold route_main_event infer_event_type
    rw [ht, hf, hto, htext]
    rfl

/-- Witness for C9 at one explicit mention event and one inferred chat
event. -/
theorem C9_routing_witness :
    (route_main_event { emptyMsg with type := some "mention" } = Route.mention) ∧
    (route_main_event { emptyMsg with
        fromUserId := some "u1",
        toUserId := some "u2",
        text := some "hi" } = Route.message) :=
  ⟨(C9_routing { emptyMsg with type := some "mention" }).1 rfl,
    (C9_routing { emptyMsg with
        fromUserId := some "u1",
        toUserId := some "u2",
        text := some "hi" }).2.2
      (by decide) (by decide) (by decide) (by decide)⟩
/-! ### Claim C4 — startup-time gating asymmetry -/

theorem parse_mention_data_mention_id (note : MsgData) :
    (parse_mention_data note).mention_id = note.id := by
  unfold parse_mention_data
  by_cases h : (note.type == some "reply" && note.note.isSome) = true <;> simp [h]

theorem track_event_msgview (s : BotState) (o : Option String) :
    (track_event s o).message_calls = s.message_calls ∧
    (track_event s o).db = s.db ∧
    (track_event s o).processed_messages = s.processed_messages ∧
    (track_event s o).mention_calls = s.mention_calls ∧
    (track_event s o).processed_mentions = s.processed_mentions := by
  unfold track_event
  rcases o with _ | i
  · exact ⟨rfl, rfl, rfl, rfl, rfl⟩
  · by_cases hi : i = "" <;> simp [hi]

theorem pyOr_of_truthy (a b : Option String) (h : truthy a = true) :
    pyOr a b = a := by
  unfold pyOr
  rw [h]
  simp

/-- Claim C4: for every event whose parsed `createdAt` is at or before
startup time and which is not yet in cache or ledger, the *pull* path
marks it processed in both cache and ledger without the handler's response
phase running, while the *push* path applies no startup gate, so the same
event delivered on the MAIN channel (fresh in the duplicate window) does
run the handler's response phase.  Both item categories are covered: a
mention-typed event against `processed_mentions` and the mention handler,
and a chat message (lacking an explicit type, carrying truthy
from/to-user ids and a non-empty text, from a sender other than the bot)
against `processed_messages` and the message handler. -/
theorem C4_startup_gating (cfg : BotCfg) (s : BotState) (e c : MsgData)
    (i ic : String) (t tc : Int)
    (hen : cfg.mention_enabled = true)
    (hid : e.id = some i) (hne : i ≠ "")
    (hty : e.type = some "mention")
    (hts : e.createdAt = TsField.parsed t) (hle : t ≤ cfg.startup_time)
    (hnc : s.processed_mentions.contains i = false)
    (hnl : is_mention_processed s.db i = false)
    (hnw : s.processed_events.contains i = false)
    (hcen : cfg.chat_enabled = true)
    (hcid : c.id = some ic) (hcne : ic ≠ "")
    (hcty : truthy c.type = false)
    (hcfrom : truthy c.fromUserId = true)
    (hcto : truthy c.toUserId = true)
    (hctext : truthy c.text = true)
    (hcu : truthy (extract_user_id c) = true)
    (hcnotbot : extract_user_id c ≠ cfg.bot_user_id)
    (hcts : c.createdAt = TsField.parsed tc) (hcle : tc ≤ cfg.startup_time)
    (hcnc : s.processed_messages.contains ic = false)
    (hcnl : is_message_processed s.db ic = false)
    (hcnw : s.processed_events.contains ic = false) :
    (step cfg s (Delivery.pullMention e true)).mention_calls = s.mention_calls ∧
    is_mention_processed (step cfg s (Delivery.pullMention e true)).db i = true ∧
    (step cfg s (Delivery.pullMention e true)).processed_mentions.contains i = true ∧
    (step cfg s (Delivery.push e true)).mention_calls = i :: s.mention_calls ∧
    (step cfg s (Delivery.pullChat c true)).message_calls = s.message_calls ∧
    is_message_processed (step cfg s (Delivery.pullChat c true)).db ic = true ∧
    (step cfg s (Delivery.pullChat c true)).processed_messages.contains ic = true ∧
    (step cfg s (Delivery.push c true)).message_calls = ic :: s.message_calls := by
  have hgate : is_message_after_startup cfg e = false := by
    unfold is_message_after_startup
    rw [hts]
    simp only [decide_eq_false_iff_not]
    exact not_lt.mpr hle
  have hpull : step cfg s (Delivery.pullMention e true) =
      (mark_processed true s i (extract_user_id e)
        (some (extract_username e)) ItemType.mention).getD s := by
    show process_polled_item cfg true s e ItemType.mention = _
    unfold process_polled_item
    simp only [hid, hne, if_false, hnc, hnl, hgate, Bool.false_eq_true, if_true]
  have hcgate : is_message_after_startup cfg c = false := by
    unfold is_message_after_startup
    rw [hcts]
    simp only [decide_eq_false_iff_not]
    exact not_lt.mpr hcle
  have hcpull : step cfg s (Delivery.pullChat c true) =
      (mark_processed true s ic (extract_user_id c)
        (some (extract_username c)) ItemType.message).getD s := by
    show process_polled_item cfg true s c ItemType.message = _
    unfold process_polled_item
    simp only [hcid, hcne, if_false, hcnc, hcnl, hcgate, Bool.false_eq_true, if_true]
  refine ⟨?_, ?_, ?_, ?_, ?_, ?_, ?_, ?_⟩
  · rw [hpull]
    simp [mark_processed]
  · rw [hpull]
    simp only [mark_processed, if_true, Option.getD_some]
    unfold is_mention_processed mark_mention_processed
    exact ledger_contains_insert_self _ _ _ _
  · rw [hpull]
    simp only [mark_processed, if_true, Option.getD_some]
    exact cacheInsert_contains_self _ _
  · show (handle_main_frame cfg true s e).mention_calls = i :: s.mention_calls
    have hdup : is_duplicate_event s e.id = false := by
      unfold is_duplicate_event
      rw [hid]
      show (truthy (some i) && s.processed_events.contains i) = false
      rw [hnw]
      exact Bool.and_false _
    have hroute : route_main_event e = Route.mention := by
      unfold route_main_event infer_event_type
      rw [hty]
      rfl
    unfold handle_main_frame
    rw [hdup]
    simp only [Bool.false_eq_true, if_false]
    rw [hid, hroute]
    show (handle_mention cfg true (track_event s (some i)) e).mention_calls =
      i :: s.mention_calls
    unfold handle_mention
    rw [hen]
    simp only [Bool.true_eq_false, if_false]
    rw [parse_mention_data_mention_id, hid]
    simp only [hne, if_false]
    simp only [mark_processed, if_true]
    simp [track_event, hne]
  · rw [hcpull]
    simp [mark_processed]
  · rw [hcpull]
    simp only [mark_processed, if_true, Option.getD_some]
    unfold is_message_processed mark_message_processed
    exact ledger_contains_insert_self _ _ _ _
  · rw [hcpull]
    simp only [mark_processed, if_true, Option.getD_some]
    exact cacheInsert_contains_self _ _
  · show (handle_main_frame cfg true s c).message_calls = ic :: s.message_calls
    have hdupc : is_duplicate_event s c.id = false := by
      unfold is_duplicate_event
      rw [hcid]
      show (truthy (some ic) && s.processed_events.contains ic) = false
      rw [hcnw]
      exact Bool.and_false _
    have hsome : c.text.isSome = true := by
      rcases hct : c.text with _ | sx
      · rw [hct] at hctext
        simp [truthy] at hctext
      · rfl
    have hinfer : infer_event_type c = some "chat" := by
      unfold infer_event_type
      rw [hcty]
      simp only [Bool.false_eq_true, if_false]
      rw [hcfrom, hcto, hsome]
      simp
    have hroutec : route_main_event c = Route.message := by
      unfold route_main_event
      rw [hinfer]
      rfl
    have houter : pyOr (pyOr c.text c.content) (some (c.body.getD "")) = c.text := by
      rw [pyOr_of_truthy c.text c.content hctext]
      exact pyOr_of_truthy _ _ hctext
    have hbeq : (extract_user_id c == cfg.bot_user_id) = false := by
      simp [hcnotbot]
    have key : ∀ s1 : BotState, s1.processed_messages = s.processed_messages →
        s1.db = s.db → s1.message_calls = s.message_calls →
        (handle_message cfg true s1 c).message_calls = ic :: s.message_calls := by
      intro s1 h1 h2 h3
      have heqm : handle_message cfg true s1 c =
          process_chat_message cfg true s1 c ic := by
        unfold handle_message
        rw [hcen]
        simp only [Bool.true_eq_false, if_false]
        rw [hcid]
        simp only [hcne, if_false]
        rw [h1, h2]
        simp only [hcnc, hcnl, Bool.or_self, Bool.false_eq_true, if_false]
      rw [heqm]
      simp only [process_chat_message]
      rw [hbeq]
      simp only [Bool.and_false, Bool.false_eq_true, if_false]
      simp only [mark_processed, if_true]
      rw [houter, hcu, hctext]
      simp only [Bool.and_self, if_true]
      simp [h3]
    unfold handle_main_frame
    rw [hdupc]
    simp only [Bool.false_eq_true, if_false]
    rw [hcid, hroutec]
    exact key (track_event s (some ic))
      (by rw [← hcid]; exact (track_event_msgview s c.id).2.2.1)
      (by rw [← hcid]; exact (track_event_msgview s c.id).2.1)
      (by rw [← hcid]; exact (track_event_msgview s c.id).1)

/-- Witness for C4: a mention note created at instant 50 and a chat
message created at instant 40, against a bot started at instant 100,
each polled and pushed from the empty state. -/
theorem C4_startup_gating_witness :
    (step { mention_enabled := true, chat_enabled := true, bot_user_id := some "bot", startup_time := 100 } initState
      (Delivery.pullMention { emptyMsg with id := some "n9", type := some "mention", createdAt := TsField.parsed 50 } true)).mention_calls =
      initState.mention_calls ∧
    is_mention_processed (step { mention_enabled := true, chat_enabled := true, bot_user_id := some "bot", startup_time := 100 } initState
      (Delivery.pullMention { emptyMsg with id := some "n9", type := some "mention", createdAt := TsField.parsed 50 } true)).db "n9" = true ∧
    (step { mention_enabled := true, chat_enabled := true, bot_user_id := some "bot", startup_time := 100 } initState
      (Delivery.pullMention { emptyMsg with id := some "n9", type := some "mention", createdAt := TsField.parsed 50 } true)).processed_mentions.contains "n9" = true ∧
    (step { mention_enabled := true, chat_enabled := true, bot_user_id := some "bot", startup_time := 100 } initState
      (Delivery.push { emptyMsg with id := some "n9", type := some "mention", createdAt := TsField.parsed 50 } true)).mention_calls =
      "n9" :: initState.mention_calls ∧
    (step { mention_enabled := true, chat_enabled := true, bot_user_id := some "bot", startup_time := 100 } initState
      (Delivery.pullChat { emptyMsg with id := some "c7", fromUserId := some "u1", toUserId := some "u2", text := some "hello", createdAt := TsField.parsed 40 } true)).message_calls =
      initState.message_calls ∧
    is_message_processed (step { mention_enabled := true, chat_enabled := true, bot_user_id := some "bot", startup_time := 100 } initState
      (Delivery.pullChat { emptyMsg with id := some "c7", fromUserId := some "u1", toUserId := some "u2", text := some "hello", createdAt := TsField.parsed 40 } true)).db "c7" = true ∧
    (step { mention_enabled := true, chat_enabled := true, bot_user_id := some "bot", startup_time := 100 } initState
      (Delivery.pullChat { emptyMsg with id := some "c7", fromUserId := some "u1", toUserId := some "u2", text := some "hello", createdAt := TsField.parsed 40 } true)).processed_messages.contains "c7" = true ∧
    (step { mention_enabled := true, chat_enabled := true, bot_user_id := some "bot", startup_time := 100 } initState
      (Delivery.push { emptyMsg with id := some "c7", fromUserId := some "u1", toUserId := some "u2", text := some "hello", createdAt := TsField.parsed 40 } true)).message_calls =
      "c7" :: initState.message_calls :=
  C4_startup_gating
    { mention_enabled := true, chat_enabled := true, bot_user_id := some "bot", startup_time := 100 } initState
    { emptyMsg with id := some "n9", type := some "mention", createdAt := TsField.parsed 50 }
    { emptyMsg with id := some "c7", fromUserId := some "u1", toUserId := some "u2", text := some "hello", createdAt := TsField.parsed 40 }
    "n9" "c7" 50 40 rfl rfl (by decide) rfl rfl (by decide) rfl rfl rfl
    rfl rfl (by decide) rfl rfl rfl rfl (by decide) (by decide) rfl (by decide)
    rfl rfl rfl

/-! ### Claim C10 — the bot skips its own chat messages -/

/-- Claim C10: an incoming chat message whose extracted sender id equals
the bot's own user id is marked processed in both the cache and the
ledger, and the handler returns without entering the plugin/LLM response
phase.  (When both ids are falsy the own-message branch is not taken, but
the `if not (user_id and text)` guard still prevents any response, so the
conclusion holds whenever the two ids are equal.) -/
theorem C10_self_message_skipped (cfg : BotCfg) (s : BotState) (m : MsgData)
    (i : String)
    (hen : cfg.chat_enabled = true)
    (hid : m.id = some i) (hne : i ≠ "")
    (hnc : s.processed_messages.contains i = false)
    (hnl : is_message_processed s.db i = false)
    (hu : extract_user_id m = cfg.bot_user_id) :
    is_message_processed (handle_message cfg true s m).db i = true ∧
    (handle_message cfg true s m).processed_messages.contains i = true ∧
    (handle_message cfg true s m).message_calls = s.message_calls := by
  have hpc : handle_message cfg true s m = process_chat_message cfg true s m i := by
    unfold handle_message
    rw [hen]
    simp only [Bool.true_eq_false, if_false]
    rw [hid]
    simp only [hne, if_false, hnc, hnl, Bool.or_self, Bool.false_eq_true, if_false]
  have hbeq : (extract_user_id m == cfg.bot_user_id) = true := by
    rw [hu]
    exact beq_self_eq_true _
  have hres : process_chat_message cfg true s m i =
      { s with
        db := mark_message_processed s.db i (extract_user_id m) (some "private"),
        processed_messages := cacheInsert i s.processed_messages } := by
    unfold process_chat_message
    simp only [hbeq, Bool.and_true]
    by_cases hb : truthy cfg.bot_user_id
    · rw [hb]
      simp [mark_processed]
    · simp only [Bool.not_eq_true] at hb
      have htru : truthy (extract_user_id m) = false := by rw [hu]; exact hb
      rw [hb]
      simp only [Bool.false_eq_true, if_false, mark_processed, if_true]
      simp [htru]
  rw [hpc, hres]
  refine ⟨?_, cacheInsert_contains_self _ _, rfl⟩
  unfold is_message_processed mark_message_processed
  exact ledger_contains_insert_self _ _ _ _

/-- Witness for C10: a chat message sent by the bot's own account. -/
theorem C10_self_message_skipped_witness :
    is_message_processed (handle_message
      { mention_enabled := true, chat_enabled := true,
        bot_user_id := some "bot", startup_time := 100 } true initState
      { emptyMsg with
        id := some "m2",
        userId := some "bot",
        text := some "hi" }).db "m2" = true ∧
    (handle_message
      { mention_enabled := true, chat_enabled := true,
        bot_user_id := some "bot", startup_time := 100 } true initState
      { emptyMsg with
        id := some "m2",
        userId := some "bot",
        text := some "hi" }).processed_messages.contains "m2" = true ∧
    (handle_message
      { mention_enabled := true, chat_enabled := true,
        bot_user_id := some "bot", startup_time := 100 } true initState
      { emptyMsg with
        id := some "m2",
        userId := some "bot",
        text := some "hi" }).message_calls = initState.message_calls :=
  C10_self_message_skipped
    { mention_enabled := true, chat_enabled := true,
      bot_user_id := some "bot", startup_time := 100 } initState
    { emptyMsg with
      id := some "m2",
      userId := some "bot",
      text := some "hi" }
    "m2" rfl rfl (by decide) rfl rfl (by decide)


/-! ### Claim C1 — at-most-once machinery -/

theorem handle_mention_msgview (cfg : BotCfg) (ok : Bool) (s : BotState)
    (note : MsgData) :
    (handle_mention cfg ok s note).message_calls = s.message_calls ∧
    (handle_mention cfg ok s note).db.processed_messages = s.db.processed_messages ∧
    (handle_mention cfg ok s note).processed_messages = s.processed_messages := by
  unfold handle_mention
  by_cases hen : cfg.mention_enabled = false
  · simp [hen]
  · simp only [hen, if_false]
    rcases hmi : (parse_mention_data note).mention_id with _ | i
    · exact ⟨rfl, rfl, rfl⟩
    · by_cases hi : i = ""
      · simp [hi]
      · cases ok
        · simp [hi, mark_processed]
        · simp [hi, mark_processed, mark_mention_processed]

theorem handle_message_mentionview (cfg : BotCfg) (ok : Bool) (s : BotState)
    (m : MsgData) :
    (handle_message cfg ok s m).mention_calls = s.mention_calls ∧
    (handle_message cfg ok s m).db.processed_mentions = s.db.processed_mentions ∧
    (handle_message cfg ok s m).processed_mentions = s.processed_mentions := by
  unfold handle_message
  split
  · exact ⟨rfl, rfl, rfl⟩
  · split
    · exact ⟨rfl, rfl, rfl⟩
    · split
      · exact ⟨rfl, rfl, rfl⟩
      · split
        · exact ⟨rfl, rfl, rfl⟩
        · simp only [process_chat_message]
          split
          · cases ok
            · simp [mark_processed]
            · simp [mark_processed, mark_message_processed]
          · cases ok
            · simp [mark_processed]
            · simp only [mark_processed, if_true]
              split <;> simp [mark_message_processed]

theorem handle_message_char (cfg : BotCfg) (ok : Bool) (s : BotState)
    (m : MsgData) :
    ((handle_message cfg ok s m).message_calls = s.message_calls ∧
      (∀ j, ledger_contains s.db.processed_messages j = true →
        ledger_contains (handle_message cfg ok s m).db.processed_messages j = true)) ∨
    (∃ i, m.id = some i ∧
      s.processed_messages.contains i = false ∧
      is_message_processed s.db i = false ∧
      (handle_message cfg ok s m).message_calls = i :: s.message_calls ∧
      ledger_contains (handle_message cfg ok s m).db.processed_messages i = true ∧
      (∀ j, ledger_contains s.db.processed_messages j = true →
        ledger_contains (handle_message cfg ok s m).db.processed_messages j = true)) := by
  by_cases hen : cfg.chat_enabled = false
  · have heq : handle_message cfg ok s m = s := by unfold handle_message; simp [hen]
    rw [heq]
    exact Or.inl ⟨rfl, fun j h => h⟩
  rcases hid : m.id with _ | i
  · have heq : handle_message cfg ok s m = s := by
      unfold handle_message; simp [hen, hid]
    rw [heq]
    exact Or.inl ⟨rfl, fun j h => h⟩
  by_cases hi : i = ""
  · have heq : handle_message cfg ok s m = s := by
      unfold handle_message; simp [hen, hid, hi]
    rw [heq]
    exact Or.inl ⟨rfl, fun j h => h⟩
  by_cases hdup : i ∈ s.processed_messages ∨ is_message_processed s.db i = true
  · have heq : handle_message cfg ok s m = s := by
      unfold handle_message; simp [hen, hid, hi, hdup]
    rw [heq]
    exact Or.inl ⟨rfl, fun j h => h⟩
  push_neg at hdup
  obtain ⟨hmem, hlf⟩ := hdup
  have hcf : s.processed_messages.contains i = false := by simp [hmem]
  have hlf' : is_message_processed s.db i = false :=
    Bool.eq_false_iff.mpr hlf
  have heq2 : handle_message cfg ok s m = process_chat_message cfg ok s m i := by
    unfold handle_message
    simp [hen, hid, hi, hmem, hlf']
  rw [heq2]
  simp only [process_chat_message]
  split
  · -- the bot's own message: mark and return, no response phase
    cases ok
    · exact Or.inl ⟨by simp [mark_processed], by simp [mark_processed]⟩
    · refine Or.inl ⟨by simp [mark_processed], ?_⟩
      intro j hj
      simp only [mark_processed, if_true, Option.getD_some]
      unfold mark_message_processed
      exact ledger_contains_insert_mono _ _ _ _ _ hj
  · cases ok
    · exact Or.inl ⟨by simp [mark_processed], by simp [mark_processed]⟩
    · simp only [mark_processed, if_true]
      split
      · -- response phase entered
        refine Or.inr ⟨i, rfl, hcf, hlf', by simp, ?_, ?_⟩
        · show ledger_contains (mark_message_processed s.db i (extract_user_id m)
            (some "private")).processed_messages i = true
          unfold mark_message_processed
          exact ledger_contains_insert_self _ _ _ _
        · intro j hj
          show ledger_contains (mark_message_processed s.db i (extract_user_id m)
            (some "private")).processed_messages j = true
          unfold mark_message_processed
          exact ledger_contains_insert_mono _ _ _ _ _ hj
      · -- missing user id or text: marked, no response phase
        refine Or.inl ⟨by simp, ?_⟩
        intro j hj
        show ledger_contains (mark_message_processed s.db i (extract_user_id m)
          (some "private")).processed_messages j = true
        unfold mark_message_processed
        exact ledger_contains_insert_mono _ _ _ _ _ hj


theorem handle_mention_char (cfg : BotCfg) (ok : Bool) (s : BotState)
    (note : MsgData) :
    ((handle_mention cfg ok s note).mention_calls = s.mention_calls ∧
      (∀ j, ledger_contains s.db.processed_mentions j = true →
        ledger_contains (handle_mention cfg ok s note).db.processed_mentions j = true)) ∨
    (∃ i, note.id = some i ∧
      (handle_mention cfg ok s note).mention_calls = i :: s.mention_calls ∧
      ledger_contains (handle_mention cfg ok s note).db.processed_mentions i = true ∧
      (∀ j, ledger_contains s.db.processed_mentions j = true →
        ledger_contains (handle_mention cfg ok s note).db.processed_mentions j = true)) := by
  by_cases hen : cfg.mention_enabled = false
  · have heq : handle_mention cfg ok s note = s := by
      unfold handle_mention; simp [hen]
    rw [heq]
    exact Or.inl ⟨rfl, fun j h => h⟩
  rcases hid : note.id with _ | i
  · have heq : handle_mention cfg ok s note = s := by
      simp only [handle_mention]
      rw [parse_mention_data_mention_id, hid]
      simp [hen]
    rw [heq]
    exact Or.inl ⟨rfl, fun j h => h⟩
  by_cases hi : i = ""
  · have heq : handle_mention cfg ok s note = s := by
      simp only [handle_mention]
      rw [parse_mention_data_mention_id, hid]
      simp [hen, hi]
    rw [heq]
    exact Or.inl ⟨rfl, fun j h => h⟩
  have heq : handle_mention cfg ok s note =
      (match mark_processed ok s i (parse_mention_data note).user_id
          (parse_mention_data note).username ItemType.mention with
        | none => s
        | some s1 => { s1 with mention_calls := i :: s1.mention_calls }) := by
    simp only [handle_mention]
    rw [parse_mention_data_mention_id, hid]
    simp [hen, hi]
  rw [heq]
  cases ok
  · exact Or.inl ⟨by simp [mark_processed], by simp [mark_processed]⟩
  · simp only [mark_processed, if_true]
    refine Or.inr ⟨i, rfl, by simp, ?_, ?_⟩
    · show ledger_contains (mark_mention_processed s.db i
        (parse_mention_data note).user_id
        (parse_mention_data note).username).processed_mentions i = true
      unfold mark_mention_processed
      exact ledger_contains_insert_self _ _ _ _
    · intro j hj
      show ledger_contains (mark_mention_processed s.db i
        (parse_mention_data note).user_id
        (parse_mention_data note).username).processed_mentions j = true
      unfold mark_mention_processed
      exact ledger_contains_insert_mono _ _ _ _ _ hj

theorem handle_mention_mentionview_db (cfg : BotCfg) (ok : Bool) (s : BotState)
    (note : MsgData) :
    (handle_mention cfg ok s note).db.processed_messages = s.db.processed_messages := by
  exact (handle_mention_msgview cfg ok s note).2.1

theorem process_polled_item_msgview_mention (cfg : BotCfg) (ok : Bool)
    (s : BotState) (item : MsgData) :
    (process_polled_item cfg ok s item ItemType.mention).message_calls =
      s.message_calls ∧
    (process_polled_item cfg ok s item ItemType.mention).db.processed_messages =
      s.db.processed_messages := by
  simp only [process_polled_item]
  split
  · exact ⟨rfl, rfl⟩
  · split
    · exact ⟨rfl, rfl⟩
    · split
      · exact ⟨rfl, rfl⟩
      · split
        · exact ⟨rfl, rfl⟩
        · split
          · exact ⟨(handle_mention_msgview cfg ok s item).1,
              (handle_mention_msgview cfg ok s item).2.1⟩
          · cases ok
            · simp [mark_processed]
            · simp [mark_processed, mark_mention_processed]

theorem process_polled_item_mentionview_message (cfg : BotCfg) (ok : Bool)
    (s : BotState) (item : MsgData) :
    (process_polled_item cfg ok s item ItemType.message).mention_calls =
      s.mention_calls ∧
    (process_polled_item cfg ok s item ItemType.message).db.processed_mentions =
      s.db.processed_mentions := by
  simp only [process_polled_item]
  split
  · exact ⟨rfl, rfl⟩
  · split
    · exact ⟨rfl, rfl⟩
    · split
      · exact ⟨rfl, rfl⟩
      · split
        · exact ⟨rfl, rfl⟩
        · split
          · exact ⟨(handle_message_mentionview cfg ok s item).1,
              (handle_message_mentionview cfg ok s item).2.1⟩
          · cases ok
            · simp [mark_processed]
            · simp [mark_processed, mark_message_processed]

theorem process_polled_item_msg_char (cfg : BotCfg) (ok : Bool) (s : BotState)
    (item : MsgData) :
    ((process_polled_item cfg ok s item ItemType.message).message_calls =
        s.message_calls ∧
      (∀ j, ledger_contains s.db.processed_messages j = true →
        ledger_contains (process_polled_item cfg ok s item
          ItemType.message).db.processed_messages j = true)) ∨
    (∃ i, s.processed_messages.contains i = false ∧
      is_message_processed s.db i = false ∧
      (process_polled_item cfg ok s item ItemType.message).message_calls =
        i :: s.message_calls ∧
      ledger_contains (process_polled_item cfg ok s item
        ItemType.message).db.processed_messages i = true ∧
      (∀ j, ledger_contains s.db.processed_messages j = true →
        ledger_contains (process_polled_item cfg ok s item
          ItemType.message).db.processed_messages j = true)) := by
  simp only [process_polled_item]
  split
  · exact Or.inl ⟨rfl, fun j h => h⟩
  · split
    · exact Or.inl ⟨rfl, fun j h => h⟩
    · split
      · exact Or.inl ⟨rfl, fun j h => h⟩
      · split
        · exact Or.inl ⟨rfl, fun j h => h⟩
        · split
          · rcases handle_message_char cfg ok s item with ⟨hc, hm⟩ |
              ⟨i, _, hcf, hlf, hcalls, hled, hm⟩
            · exact Or.inl ⟨hc, hm⟩
            · exact Or.inr ⟨i, hcf, hlf, hcalls, hled, hm⟩
          · cases ok
            · exact Or.inl ⟨by simp [mark_processed], by simp [mark_processed]⟩
            · refine Or.inl ⟨by simp [mark_processed], ?_⟩
              intro j hj
              simp only [mark_processed, if_true, Option.getD_some]
              unfold mark_message_processed
              exact ledger_contains_insert_mono _ _ _ _ _ hj

theorem process_polled_item_mention_char (cfg : BotCfg) (ok : Bool)
    (s : BotState) (item : MsgData) :
    ((process_polled_item cfg ok s item ItemType.mention).mention_calls =
        s.mention_calls ∧
      (∀ j, ledger_contains s.db.processed_mentions j = true →
        ledger_contains (process_polled_item cfg ok s item
          ItemType.mention).db.processed_mentions j = true)) ∨
    (∃ i, s.processed_mentions.contains i = false ∧
      is_mention_processed s.db i = false ∧
      (process_polled_item cfg ok s item ItemType.mention).mention_calls =
        i :: s.mention_calls ∧
      ledger_contains (process_polled_item cfg ok s item
        ItemType.mention).db.processed_mentions i = true ∧
      (∀ j, ledger_contains s.db.processed_mentions j = true →
        ledger_contains (process_polled_item cfg ok s item
          ItemType.mention).db.processed_mentions j = true)) := by
  simp only [process_polled_item]
  split
  · exact Or.inl ⟨rfl, fun j h => h⟩
  rename_i i hii
  split
  · exact Or.inl ⟨rfl, fun j h => h⟩
  split
  · exact Or.inl ⟨rfl, fun j h => h⟩
  split
  · exact Or.inl ⟨rfl, fun j h => h⟩
  rename_i hcache hledg
  split
  · rcases handle_mention_char cfg ok s item with ⟨hc, hm⟩ |
      ⟨i2, hid2, hcalls, hled, hm⟩
    · exact Or.inl ⟨hc, hm⟩
    · have hi2 : i2 = i := by
        rw [hii] at hid2
        exact (Option.some.inj hid2).symm
      subst hi2
      refine Or.inr ⟨i2, Bool.eq_false_iff.mpr hcache, Bool.eq_false_iff.mpr hledg,
        hcalls, hled, hm⟩
  · cases ok
    · exact Or.inl ⟨by simp [mark_processed], by simp [mark_processed]⟩
    · refine Or.inl ⟨by simp [mark_processed], ?_⟩
      intro j hj
      simp only [mark_processed, if_true, Option.getD_some]
      unfold mark_mention_processed
      exact ledger_contains_insert_mono _ _ _ _ _ hj


theorem handle_main_frame_msg_char (cfg : BotCfg) (ok : Bool) (s : BotState)
    (e : MsgData) :
    ((handle_main_frame cfg ok s e).message_calls = s.message_calls ∧
      (∀ j, ledger_contains s.db.processed_messages j = true →
        ledger_contains (handle_main_frame cfg ok s e).db.processed_messages j = true)) ∨
    (∃ i, s.processed_messages.contains i = false ∧
      is_message_processed s.db i = false ∧
      (handle_main_frame cfg ok s e).message_calls = i :: s.message_calls ∧
      ledger_contains (handle_main_frame cfg ok s e).db.processed_messages i = true ∧
      (∀ j, ledger_contains s.db.processed_messages j = true →
        ledger_contains (handle_main_frame cfg ok s e).db.processed_messages j = true)) := by
  obtain ⟨htc, htdb, htpm, htnc, htnm⟩ := track_event_msgview s e.id
  unfold handle_main_frame
  split
  · exact Or.inl ⟨rfl, fun j h => h⟩
  · split
    · -- mention route
      refine Or.inl ⟨?_, ?_⟩
      · rw [(handle_mention_msgview cfg ok (track_event s e.id) e).1, htc]
      · intro j hj
        rw [(handle_mention_msgview cfg ok (track_event s e.id) e).2.1, htdb]
        exact hj
    · -- message route
      rcases handle_message_char cfg ok (track_event s e.id) e with ⟨hc, hm⟩ |
        ⟨i, hid, hcf, hlf, hcalls, hled, hm⟩
      · refine Or.inl ⟨by rw [hc, htc], ?_⟩
        intro j hj
        exact hm j (by rw [htdb]; exact hj)
      · refine Or.inr ⟨i, ?_, ?_, ?_, hled, ?_⟩
        · rw [htpm] at hcf
          exact hcf
        · show ledger_contains s.db.processed_messages i = false
          rw [← htdb]
          exact hlf
        · rw [hcalls, htc]
        · intro j hj
          exact hm j (by rw [htdb]; exact hj)
    · -- dropped
      exact Or.inl ⟨htc, fun j hj => by rw [htdb]; exact hj⟩

theorem step_msg_char (cfg : BotCfg) (s : BotState) (d : Delivery) :
    ((step cfg s d).message_calls = s.message_calls ∧
      (∀ j, ledger_contains s.db.processed_messages j = true →
        ledger_contains (step cfg s d).db.processed_messages j = true)) ∨
    (∃ i, s.processed_messages.contains i = false ∧
      is_message_processed s.db i = false ∧
      (step cfg s d).message_calls = i :: s.message_calls ∧
      ledger_contains (step cfg s d).db.processed_messages i = true ∧
      (∀ j, ledger_contains s.db.processed_messages j = true →
        ledger_contains (step cfg s d).db.processed_messages j = true)) := by
  rcases d with ⟨e, ok⟩ | ⟨e, ok⟩ | ⟨e, ok⟩ | _ | i | i | i
  · exact handle_main_frame_msg_char cfg ok s e
  · exact Or.inl ⟨(process_polled_item_msgview_mention cfg ok s e).1,
      fun j hj => by
        rw [show (step cfg s (Delivery.pullMention e ok)).db.processed_messages =
          s.db.processed_messages from
          (process_polled_item_msgview_mention cfg ok s e).2]
        exact hj⟩
  · exact process_polled_item_msg_char cfg ok s e
  · exact Or.inl ⟨rfl, fun j h => h⟩
  · exact Or.inl ⟨rfl, fun j h => h⟩
  · exact Or.inl ⟨rfl, fun j h => h⟩
  · exact Or.inl ⟨rfl, fun j h => h⟩

theorem step_mention_char (cfg : BotCfg) (s : BotState) (d : Delivery)
    (hnp : no_push d = true) :
    ((step cfg s d).mention_calls = s.mention_calls ∧
      (∀ j, ledger_contains s.db.processed_mentions j = true →
        ledger_contains (step cfg s d).db.processed_mentions j = true)) ∨
    (∃ i, s.processed_mentions.contains i = false ∧
      is_mention_processed s.db i = false ∧
      (step cfg s d).mention_calls = i :: s.mention_calls ∧
      ledger_contains (step cfg s d).db.processed_mentions i = true ∧
      (∀ j, ledger_contains s.db.processed_mentions j = true →
        ledger_contains (step cfg s d).db.processed_mentions j = true)) := by
  rcases d with ⟨e, ok⟩ | ⟨e, ok⟩ | ⟨e, ok⟩ | _ | i | i | i
  · exact absurd hnp (by simp [no_push])
  · exact process_polled_item_mention_char cfg ok s e
  · exact Or.inl ⟨(process_polled_item_mentionview_message cfg ok s e).1,
      fun j hj => by
        rw [show (step cfg s (Delivery.pullChat e ok)).db.processed_mentions =
          s.db.processed_mentions from
          (process_polled_item_mentionview_message cfg ok s e).2]
        exact hj⟩
  · exact Or.inl ⟨rfl, fun j h => h⟩
  · exact Or.inl ⟨rfl, fun j h => h⟩
  · exact Or.inl ⟨rfl, fun j h => h⟩
  · exact Or.inl ⟨rfl, fun j h => h⟩

theorem InvMsg_step (cfg : BotCfg) (s : BotState) (d : Delivery)
    (h : InvMsg s) : InvMsg (step cfg s d) := by
  rcases step_msg_char cfg s d with ⟨hc, hm⟩ | ⟨i, hcf, hlf, hcalls, hled, hm⟩
  · intro id
    refine ⟨?_, ?_⟩
    · rw [hc]
      exact (h id).1
    · intro hmem
      rw [hc] at hmem
      exact hm id ((h id).2 hmem)
  · intro id
    by_cases hii : id = i
    · subst hii
      have hnotmem : id ∉ s.message_calls := by
        intro hmem
        have hl := (h id).2 hmem
        rw [show ledger_contains s.db.processed_messages id =
          is_message_processed s.db id from rfl, hlf] at hl
        exact Bool.false_ne_true hl
      refine ⟨?_, fun _ => hled⟩
      rw [hcalls, List.count_cons_self,
        List.count_eq_zero.mpr hnotmem]
    · refine ⟨?_, ?_⟩
      · rw [hcalls, List.count_cons_of_ne hii]
        exact (h id).1
      · intro hmem
        rw [hcalls] at hmem
        rcases List.mem_cons.mp hmem with he | hmem2
        · exact absurd he hii
        · exact hm id ((h id).2 hmem2)

theorem InvMention_step (cfg : BotCfg) (s : BotState) (d : Delivery)
    (hnp : no_push d = true) (h : InvMention s) : InvMention (step cfg s d) := by
  rcases step_mention_char cfg s d hnp with ⟨hc, hm⟩ |
    ⟨i, hcf, hlf, hcalls, hled, hm⟩
  · intro id
    refine ⟨?_, ?_⟩
    · rw [hc]
      exact (h id).1
    · intro hmem
      rw [hc] at hmem
      exact hm id ((h id).2 hmem)
  · intro id
    by_cases hii : id = i
    · subst hii
      have hnotmem : id ∉ s.mention_calls := by
        intro hmem
        have hl := (h id).2 hmem
        rw [show ledger_contains s.db.processed_mentions id =
          is_mention_processed s.db id from rfl, hlf] at hl
        exact Bool.false_ne_true hl
      refine ⟨?_, fun _ => hled⟩
      rw [hcalls, List.count_cons_self,
        List.count_eq_zero.mpr hnotmem]
    · refine ⟨?_, ?_⟩
      · rw [hcalls, List.count_cons_of_ne hii]
        exact (h id).1
      · intro hmem
        rw [hcalls] at hmem
        rcases List.mem_cons.mp hmem with he | hmem2
        · exact absurd he hii
        · exact hm id ((h id).2 hmem2)

theorem InvMsg_run (cfg : BotCfg) (trace : List Delivery) (s : BotState)
    (h : InvMsg s) : InvMsg (run cfg s trace) := by
  induction trace generalizing s with
  | nil => exact h
  | cons d t ih => exact ih _ (InvMsg_step cfg s d h)

theorem InvMention_run (cfg : BotCfg) (trace : List Delivery) (s : BotState)
    (h : InvMention s) (hall : trace.all no_push = true) :
    InvMention (run cfg s trace) := by
  induction trace generalizing s with
  | nil => exact h
  | cons d t ih =>
    rw [List.all_cons, Bool.and_eq_true] at hall
    exact ih _ (InvMention_step cfg s d hall.1 h) hall.2


/-- Claim C1 counterexample: the mention handler `_handle_mention` never
consults the cache or the ledger, so dedup for push-delivered mentions
rests solely on the streaming client's transport-local `processed_events`
window — which `_cleanup_websocket_resources` clears on reconnect.
Delivering the same mention event twice over the push path with a
reconnect in between makes the handler's response phase run twice for
the same id, even though the first run recorded the id in cache and
ledger — refuting at-most-once as claimed. -/
theorem C1_counterexample :
    (run { mention_enabled := true, chat_enabled := true, bot_user_id := some "bot", startup_time := 0 }
      initState
      [Delivery.push { emptyMsg with id := some "n1", type := some "mention" } true,
        Delivery.wsReconnect,
        Delivery.push { emptyMsg with id := some "n1", type := some "mention" } true]).mention_calls.count "n1" = 2 ∧
    ¬ ((run { mention_enabled := true, chat_enabled := true, bot_user_id := some "bot", startup_time := 0 }
      initState
      [Delivery.push { emptyMsg with id := some "n1", type := some "mention" } true,
        Delivery.wsReconnect,
        Delivery.push { emptyMsg with id := some "n1", type := some "mention" } true]).mention_calls.count "n1" ≤ 1) := by
  constructor
  · rfl
  · decide

/-- Claim C1 as amended: at-most-once holds for chat-message events across
any mix of push and pull deliveries, database-write failures, reconnects
and cache evictions, because `_handle_message` checks cache and ledger
before processing and `_process_chat_message` marks before replying; for
mention events the guarantee holds only while every delivery avoids the
push path (polled mentions are cache/ledger-checked), since push-delivered
mentions are deduplicated only against the transport-local window (see the
counterexample).  Both parts start from any freshly started process state
(no response phase has run yet; database and caches arbitrary, covering
restarts with a persisted ledger). -/
theorem C1_at_most_once (cfg : BotCfg) (s0 : BotState) (trace : List Delivery)
    (id : String)
    (hm0 : s0.message_calls = []) (hn0 : s0.mention_calls = []) :
    (run cfg s0 trace).message_calls.count id ≤ 1 ∧
    (trace.all no_push = true →
      (run cfg s0 trace).mention_calls.count id ≤ 1) := by
  have hIm : InvMsg s0 := by
    intro j
    rw [hm0]
    exact ⟨by simp, by simp⟩
  refine ⟨(InvMsg_run cfg trace s0 hIm id).1, ?_⟩
  intro hall
  have hIn : InvMention s0 := by
    intro j
    rw [hn0]
    exact ⟨by simp, by simp⟩
  exact (InvMention_run cfg trace s0 hIn hall id).1

/-- Witness for C1: a pull-only trace delivering the same mention twice and
the same chat message twice from a restarted state with a warm ledger. -/
theorem C1_at_most_once_witness :
    (run { mention_enabled := true, chat_enabled := true, bot_user_id := some "bot", startup_time := 0 }
      initState
      [Delivery.pullMention { emptyMsg with id := some "a1", type := some "mention", createdAt := TsField.parsed 5 } true,
        Delivery.pullMention { emptyMsg with id := some "a1", type := some "mention", createdAt := TsField.parsed 5 } true,
        Delivery.pullChat { emptyMsg with id := some "b1", fromUserId := some "u1", toUserId := some "bot", text := some "hi", createdAt := TsField.parsed 5 } true,
        Delivery.pullChat { emptyMsg with id := some "b1", fromUserId := some "u1", toUserId := some "bot", text := some "hi", createdAt := TsField.parsed 5 } true]).message_calls.count "b1" ≤ 1 ∧
    (run { mention_enabled := true, chat_enabled := true, bot_user_id := some "bot", startup_time := 0 }
      initState
      [Delivery.pullMention { emptyMsg with id := some "a1", type := some "mention", createdAt := TsField.parsed 5 } true,
        Delivery.pullMention { emptyMsg with id := some "a1", type := some "mention", createdAt := TsField.parsed 5 } true,
        Delivery.pullChat { emptyMsg with id := some "b1", fromUserId := some "u1", toUserId := some "bot", text := some "hi", createdAt := TsField.parsed 5 } true,
        Delivery.pullChat { emptyMsg with id := some "b1", fromUserId := some "u1", toUserId := some "bot", text := some "hi", createdAt := TsField.parsed 5 } true]).mention_calls.count "a1" ≤ 1 :=
  ⟨(C1_at_most_once
      { mention_enabled := true, chat_enabled := true, bot_user_id := some "bot", startup_time := 0 }
      initState
      [Delivery.pullMention { emptyMsg with id := some "a1", type := some "mention", createdAt := TsField.parsed 5 } true,
        Delivery.pullMention { emptyMsg with id := some "a1", type := some "mention", createdAt := TsField.parsed 5 } true,
        Delivery.pullChat { emptyMsg with id := some "b1", fromUserId := some "u1", toUserId := some "bot", text := some "hi", createdAt := TsField.parsed 5 } true,
        Delivery.pullChat { emptyMsg with id := some "b1", fromUserId := some "u1", toUserId := some "bot", text := some "hi", createdAt := TsField.parsed 5 } true]
      "b1" rfl rfl).1,
    (C1_at_most_once
      { mention_enabled := true, chat_enabled := true, bot_user_id := some "bot", startup_time := 0 }
      initState
      [Delivery.pullMention { emptyMsg with id := some "a1", type := some "mention", createdAt := TsField.parsed 5 } true,
        Delivery.pullMention { emptyMsg with id := some "a1", type := some "mention", createdAt := TsField.parsed 5 } true,
        Delivery.pullChat { emptyMsg with id := some "b1", fromUserId := some "u1", toUserId := some "bot", text := some "hi", createdAt := TsField.parsed 5 } true,
        Delivery.pullChat { emptyMsg with id := some "b1", fromUserId := some "u1", toUserId := some "bot", text := some "hi", createdAt := TsField.parsed 5 } true]
      "a1" rfl rfl).2 (by decide)⟩

end MisskeyAI
